import Mathlib

/-!
# Catalog Query & Favorites Engine — verification development

Shallow embedding of the Movie Explorer frontend core:

* `serializeFilters` embeds `movieService.getMovies`'s query-parameter
  construction (src/frontend/src/services/movieService.ts, lines 8-23);
* the favorites persistence layer embeds the localStorage utilities
  (getFavorites / saveFavorites / addToFavorites / removeFromFavorites /
  isFavorite / clearFavorites) and the `toggleFavorite` hook;
* `hydrateFavorites` / `fetchFavoriteMovies` embed the `Favorites` page
  effect that resolves favorite ids to movies via `Promise.all`;
* `stepML` embeds the `MoviesList` page fetch lifecycle (filter changes,
  response arrival, retry).

JavaScript numbers appearing in filters are modelled as integers (`Int`);
the claims verified here do not depend on non-integer formatting.
-/

/-- A JavaScript value as it can appear in a `MovieFilters` field:
a number, a string, `null`, or `undefined` (also standing for an absent
field, which `Object.entries` skips and the serializer's guard would drop
anyway). -/
inductive JsVal where
  | vUndefined : JsVal
  | vNull : JsVal
  | vNum (n : Int) : JsVal
  | vStr (s : String) : JsVal
deriving DecidableEq

/-- The guard `value !== undefined && value !== null && value !== ''` from
`movieService.getMovies`.  Note a number is never `=== ''` (strict
comparison, no coercion), so `0` passes the guard. -/
def keepJsVal : JsVal → Bool
  | .vUndefined => false
  | .vNull => false
  | .vNum _ => true
  | .vStr s => !(s == "")

/-- `value.toString()` for the values that pass `keepJsVal`.  JavaScript's
`Number.prototype.toString` on an integer value prints its decimal form,
matching `Int` printing; the `vNull`/`vUndefined` branches are unreachable
behind the guard. -/
def jsValToString : JsVal → String
  | .vNum n => toString n
  | .vStr s => s
  | _ => ""

/-- The `MovieFilters` interface (src/frontend/src/types/movie.ts): all
fields optional; an unset field carries `vUndefined`. -/
structure FilterState where
  page : JsVal
  page_size : JsVal
  genre : JsVal
  director : JsVal
  actor : JsVal
  year : JsVal
  search : JsVal
  min_rating : JsVal
  max_rating : JsVal
deriving DecidableEq

/-- `Object.entries(filters)`: the key/value pairs of the filter object, in
declaration order. -/
def filterEntries (fs : FilterState) : List (String × JsVal) :=
  [ ("page", fs.page), ("page_size", fs.page_size), ("genre", fs.genre),
    ("director", fs.director), ("actor", fs.actor), ("year", fs.year),
    ("search", fs.search), ("min_rating", fs.min_rating),
    ("max_rating", fs.max_rating) ]

/-- The `forEach` loop of `getMovies`: successively `append` the entries
passing the guard onto the `URLSearchParams` accumulator. -/
def serializeAux (acc : List (String × String)) :
    List (String × JsVal) → List (String × String)
  | [] => acc
  | kv :: rest =>
      if keepJsVal kv.2 then
        serializeAux (acc ++ [(kv.1, jsValToString kv.2)]) rest
      else
        serializeAux acc rest

/-- `movieService.getMovies`'s query construction: the params accumulated
from the filter entries (src/frontend/src/services/movieService.ts,
lines 9-17). -/
def serializeFilters (fs : FilterState) : List (String × String) :=
  serializeAux [] (filterEntries fs)

/-! ## Favorites persistence layer (localStorage utilities)

Two views of the store.  The raw view (`getFavoritesRaw`) keeps the
persisted value as an optional string and takes the deserializer
(`JSON.parse`, a platform builtin) as an explicit parameter whose failure
is the thrown exception caught by the source's `try/catch`; it is used for
the corrupt-store claims.  The value view (`Option (List Int)`: `none` is
an absent key) abstracts the JSON round trip and is used for the
set-algebra and round-trip claims.  Every source operation wraps its
storage accesses in `try/catch`, which is why every embedded operation is
a total function: no failure escapes to the caller. -/

/-- `getFavorites` (raw view): `localStorage.getItem` returns `null`
(modelled `none`) or a string; a falsy string (the empty string) yields
`[]` via the `favorites ? JSON.parse(favorites) : []` conditional; a
`JSON.parse` exception is caught and yields `[]`. -/
def getFavoritesRaw (store : Option String)
    (parse : String → Except String (List Int)) : List Int :=
  match store with
  | none => []
  | some s =>
      if s == "" then []
      else
        match parse s with
        | .ok l => l
        | .error _ => []

/-- `getFavorites` (value view): an absent key is the empty set. -/
def getFavoritesV (store : Option (List Int)) : List Int :=
  store.getD []

/-- `saveFavorites`: `localStorage.setItem` persists the new list; if the
write throws (`writeOk = false`) the exception is caught and logged, so
the store keeps its previous contents. -/
def saveFavoritesV (store : Option (List Int)) (l : List Int)
    (writeOk : Bool) : Option (List Int) :=
  if writeOk then some l else store

/-- `addToFavorites`: read the current list; when the id is absent, append
it and persist; when present, return the list unchanged without writing.
Returns the caller-visible list paired with the store after the call. -/
def addToFavoritesV (store : Option (List Int)) (movieId : Int)
    (writeOk : Bool) : List Int × Option (List Int) :=
  let favorites := getFavoritesV store
  if favorites.contains movieId then
    (favorites, store)
  else
    let newFavorites := favorites ++ [movieId]
    (newFavorites, saveFavoritesV store newFavorites writeOk)

/-- `removeFromFavorites`: filter the id out and persist the result. -/
def removeFromFavoritesV (store : Option (List Int)) (movieId : Int)
    (writeOk : Bool) : List Int × Option (List Int) :=
  let newFavorites := (getFavoritesV store).filter (fun id => id ≠ movieId)
  (newFavorites, saveFavoritesV store newFavorites writeOk)

/-- `isFavorite`: membership in the currently persisted list. -/
def isFavoriteV (store : Option (List Int)) (movieId : Int) : Bool :=
  (getFavoritesV store).contains movieId

/-- `clearFavorites`: `localStorage.removeItem` deletes the key; a thrown
exception is caught, leaving the store unchanged.  The `useFavorites` hook
then shows `[]` to the caller in either case. -/
def clearFavoritesV (store : Option (List Int)) (writeOk : Bool) :
    Option (List Int) :=
  if writeOk then none else store

/-- `toggleFavorite` (useFavorites hook): remove when present, add when
absent. -/
def toggleFavoriteV (store : Option (List Int)) (movieId : Int)
    (writeOk : Bool) : List Int × Option (List Int) :=
  if isFavoriteV store movieId then
    removeFromFavoritesV store movieId writeOk
  else
    addToFavoritesV store movieId writeOk

/-- The favorites operations a caller can issue through the hook. -/
inductive FavOp where
  | load : FavOp
  | add (id : Int) : FavOp
  | remove (id : Int) : FavOp
  | toggle (id : Int) : FavOp
  | clear : FavOp
deriving DecidableEq

/-- One operation against the store: the caller-visible list paired with
the store afterwards.  `writeOk` says whether the storage writes performed
by the operation succeed (`clear`'s caller-visible list is `[]` because
the hook runs `setFavorites([])` after `clearFavorites()` returns). -/
def applyFavOpW (store : Option (List Int)) (writeOk : Bool) :
    FavOp → List Int × Option (List Int)
  | .load => (getFavoritesV store, store)
  | .add id => addToFavoritesV store id writeOk
  | .remove id => removeFromFavoritesV store id writeOk
  | .toggle id => toggleFavoriteV store id writeOk
  | .clear => ([], clearFavoritesV store writeOk)

/-- One operation against the store with successful writes. -/
def applyFavOp (store : Option (List Int)) : FavOp → List Int × Option (List Int) :=
  applyFavOpW store true

/-- Run a sequence of operations; the first component is the list returned
by the last operation (initially what `load` would return). -/
def runFavOps (store : Option (List Int)) (ops : List FavOp) :
    List Int × Option (List Int) :=
  ops.foldl (fun acc op => applyFavOp acc.2 op) (getFavoritesV store, store)

/-! ## Entities and remote responses -/

/-- `Genre` (src/frontend/src/types/movie.ts). -/
structure Genre where
  id : Int
  name : String
  description : Option String
deriving DecidableEq

/-- `Director` / `Actor` share this shape (src/frontend/src/types/movie.ts). -/
structure Person where
  id : Int
  name : String
  bio : Option String
  birth_date : Option String
  nationality : Option String
deriving DecidableEq

/-- `Movie` (src/frontend/src/types/movie.ts); the rating is an integer in
this model (see the header note on numbers). -/
structure Movie where
  id : Int
  title : String
  description : String
  release_year : Int
  duration_minutes : Int
  rating : Int
  poster_url : String
  director : Option Person
  actors : Option (List Person)
  genres : Option (List Genre)
deriving DecidableEq

/-- `PaginationMeta` (src/frontend/src/types/api.ts). -/
structure PaginationMeta where
  page : Int
  page_size : Int
  total_items : Int
  total_pages : Int
  has_next : Bool
  has_prev : Bool
deriving DecidableEq

/-- The list-endpoint response as `MoviesList` consumes it: `response.data`
and `response.meta` are read defensively (`response.data || []`,
`response.meta?.total_pages || 1`), so both are optional here. -/
structure PaginatedMovies where
  data : Option (List Movie)
  meta : Option PaginationMeta
deriving DecidableEq

/-- The detail-endpoint response as the `Favorites` page unwraps it: the
API sometimes returns `{ success, data }` and sometimes the bare movie;
`(response as any).data || response` handles both. -/
inductive MovieResp where
  | wrapped (success : Bool) (m : Movie) : MovieResp
  | plain (m : Movie) : MovieResp
deriving DecidableEq

/-- `response => (response as any).data || response` from the `Favorites`
effect. -/
def unwrapMovieResp : MovieResp → Movie
  | .wrapped _ m => m
  | .plain m => m

/-! ## Favorites page hydration (`Favorites` in MovieDetail.tsx) -/

/-- `Promise.all(favorites.map((id) => movieService.getMovieById(id)))`:
the first rejection rejects the whole aggregate; otherwise the responses
in id order.  `fetch` gives each id's settled outcome. -/
def hydrateFavorites (ids : List Int)
    (fetch : Int → Except String MovieResp) : Except String (List MovieResp) :=
  match ids with
  | [] => .ok []
  | i :: rest =>
      match fetch i with
      | .error e => .error e
      | .ok r =>
          match hydrateFavorites rest fetch with
          | .error e => .error e
          | .ok rs => .ok (r :: rs)

/-- The `Favorites` page state touched by the hydration effect. -/
structure FavPageState where
  favoriteMovies : List Movie
  loading : Bool
  error : Option String
deriving DecidableEq

/-- `useState` initial values of the `Favorites` page. -/
def favPageInit : FavPageState :=
  { favoriteMovies := [], loading := true, error := none }

/-- `(err as Error).message || 'Failed to load favorite movies'`. -/
def favErrorMessage (e : String) : String :=
  if e == "" then "Failed to load favorite movies" else e

/-- The `fetchFavoriteMovies` effect body: empty favorites short-circuit
(only `setLoading(false)`, zero fetches); otherwise every id is fetched
(`Promise.all` creates all the promises up front, so the call count is the
number of ids even when one fails), and the aggregate either replaces
`favoriteMovies` wholesale or sets a single error message, never a partial
list.  Returns the new state and the number of `getMovieById` calls. -/
def fetchFavoriteMovies (st : FavPageState) (favorites : List Int)
    (fetch : Int → Except String MovieResp) : FavPageState × Nat :=
  if favorites.isEmpty then
    ({ st with loading := false }, 0)
  else
    match hydrateFavorites favorites fetch with
    | .ok responses =>
        ({ st with favoriteMovies := responses.map unwrapMovieResp,
                   loading := false, error := none }, favorites.length)
    | .error e =>
        ({ st with error := some (favErrorMessage e), loading := false },
         favorites.length)

/-! ## MoviesList fetch lifecycle (NotFound.tsx, `MoviesList`)

The component refetches whenever `filters` changes (`useEffect` keyed on
`[filters]`); every call site of `setFilters` — `handleFiltersChange`,
`handlePageChange`, and the retry handler `setFilters({...filters})` —
passes a fresh object, so each `setFilters` triggers exactly one effect
run issuing exactly one `movieService.getMovies(filters)` call.  A
response's completion handler applies `setMovies`/`setError`
unconditionally: nothing in the source compares the response against the
request currently in flight. -/

/-- Modelled from the spec: default page size constant
(`DEFAULT_PAGE_SIZE` from `config/constants.ts`, which is not under src/;
the spec's example filter uses `page_size=20`). -/
def DEFAULT_PAGE_SIZE : Int := 20

/-- The initial `MoviesList` filters:
`{ page: 1, page_size: DEFAULT_PAGE_SIZE }`. -/
def mlDefaultFilters : FilterState :=
  { page := .vNum 1, page_size := .vNum DEFAULT_PAGE_SIZE,
    genre := .vUndefined, director := .vUndefined, actor := .vUndefined,
    year := .vUndefined, search := .vUndefined, min_rating := .vUndefined,
    max_rating := .vUndefined }

/-- The `MoviesList` component state, plus the trace of issued requests
(each recorded by the FilterState it was serialized from). -/
structure MLState where
  movies : List Movie
  loading : Bool
  error : Option String
  totalPages : Int
  filters : FilterState
  issued : List FilterState
deriving DecidableEq

/-- Mount state: the initial `useState` values, after the first effect run
issued the fetch for the default filters. -/
def mlInit : MLState :=
  { movies := [], loading := true, error := none, totalPages := 1,
    filters := mlDefaultFilters, issued := [mlDefaultFilters] }

/-- `(err as Error).message || 'Failed to load movies'`. -/
def mlErrorMessage (e : String) : String :=
  if e == "" then "Failed to load movies" else e

/-- `response.meta?.total_pages || 1`: `0` is falsy. -/
def mlTotalPages (resp : PaginatedMovies) : Int :=
  match resp.meta with
  | none => 1
  | some m => if m.total_pages == 0 then 1 else m.total_pages

/-- Events observable by the component: a `setFilters` call (filter edit,
page change, or retry), and the arrival of the response of the `k`-th
issued request.  `k` names which in-flight request resolved; the
completion handler itself ignores it (the source has no generation
check). -/
inductive MLEvent where
  | setFilters (f : FilterState) : MLEvent
  | complete (k : Nat) (r : Except String PaginatedMovies) : MLEvent

/-- One transition of the `MoviesList` lifecycle.  `setFilters f` re-runs
the effect: `setLoading(true)`, `setError(null)`, one fetch issued for
`f`.  `complete _ r` runs a completion handler: on success
`setMovies(response.data || [])` and `setTotalPages(...)`, on rejection
`setError(...)`, and `finally setLoading(false)` — all applied no matter
which request the response answers. -/
def stepML (st : MLState) : MLEvent → MLState
  | .setFilters f =>
      { st with filters := f, loading := true, error := none,
                issued := st.issued ++ [f] }
  | .complete _ r =>
      match r with
      | .ok resp =>
          { st with movies := resp.data.getD [],
                    totalPages := mlTotalPages resp, loading := false }
      | .error e =>
          { st with error := some (mlErrorMessage e), loading := false }

/-- Run a trace of events from the mounted component. -/
def runML (events : List MLEvent) : MLState :=
  events.foldl stepML mlInit

/-! ## Concrete sample data used by witnesses and counterexample traces -/

/-- A minimal concrete movie with the given id. -/
def sampleMovie (i : Int) : Movie :=
  { id := i, title := "Movie", description := "", release_year := 2000,
    duration_minutes := 100, rating := 7, poster_url := "",
    director := none, actors := none, genres := none }

/-- A deserializer standing in for `JSON.parse` on the favorites key:
accepts exactly the encoding of `[5,7]`. -/
def parseStub : String → Except String (List Int) :=
  fun s => if s == "[5,7]" then .ok [5, 7] else .error "Unexpected token"

/-- A per-id fetch in which every request succeeds with a bare movie. -/
def fetchGood : Int → Except String MovieResp :=
  fun i => .ok (.plain (sampleMovie i))

/-- A per-id fetch in which id 2 fails and every other id succeeds. -/
def fetchBad : Int → Except String MovieResp :=
  fun i => if i == 2 then .error "Network Error" else .ok (.plain (sampleMovie i))

/-- Filters with `search = "alpha"`. -/
def fsAlpha : FilterState :=
  { mlDefaultFilters with search := JsVal.vStr "alpha" }

/-- Filters with `search = "beta"`. -/
def fsBeta : FilterState :=
  { mlDefaultFilters with search := JsVal.vStr "beta" }

/-- The list response answering the `search = "alpha"` request. -/
def respAlpha : PaginatedMovies :=
  { data := some [sampleMovie 101], meta := none }

/-- The list response answering the `search = "beta"` request. -/
def respBeta : PaginatedMovies :=
  { data := some [sampleMovie 202], meta := none }

/-- The out-of-order trace: edit filters to `alpha` (request 1), then to
`beta` (request 2); request 2's response arrives first, then request 1's
stale response arrives last. -/
def staleTrace : List MLEvent :=
  [ .setFilters fsAlpha, .setFilters fsBeta,
    .complete 2 (.ok respBeta), .complete 1 (.ok respAlpha) ]

/-- A `MoviesList` state sitting in the error state after its only request
failed. -/
def mlErrorState : MLState :=
  { movies := [], loading := false, error := some "Network Error",
    totalPages := 1, filters := mlDefaultFilters,
    issued := [mlDefaultFilters] }

/-! ## Serialization lemmas -/

/-- The accumulator form of the serialization loop: appending the kept
entries. -/
theorem serializeAux_eq (l : List (String × JsVal)) :
    ∀ acc, serializeAux acc l =
      acc ++ (l.filter (fun kv => keepJsVal kv.2)).map
        (fun kv => (kv.1, jsValToString kv.2)) := by
  induction l with
  | nil => intro acc; simp [serializeAux]
  | cons kv rest ih =>
      intro acc
      by_cases h : keepJsVal kv.2
      · simp [serializeAux, h, ih, List.filter_cons]
      · simp [serializeAux, h, ih, List.filter_cons]

/-- The source's guard holds exactly on values that are neither
`undefined`, `null`, nor the empty string. -/
theorem keepJsVal_eq_true_iff (v : JsVal) :
    keepJsVal v = true ↔
      v ≠ JsVal.vUndefined ∧ v ≠ JsVal.vNull ∧ v ≠ JsVal.vStr "" := by
  cases v with
  | vUndefined => simp [keepJsVal]
  | vNull => simp [keepJsVal]
  | vNum n => simp [keepJsVal]
  | vStr s => simp [keepJsVal]

/-- C2: serializing a FilterState omits exactly the fields whose value is
`undefined`, `null`, or the empty string; every kept field appears under
its own key with its `toString` form; numeric fields always pass the guard
(in particular the value `0`, which prints as `"0"`). -/
theorem serializeFilters_omits_exactly_absent (fs : FilterState) (k s : String) :
    ((k, s) ∈ serializeFilters fs ↔
      ∃ v, (k, v) ∈ filterEntries fs ∧ v ≠ JsVal.vUndefined ∧
        v ≠ JsVal.vNull ∧ v ≠ JsVal.vStr "" ∧ s = jsValToString v) ∧
    (∀ n : Int, keepJsVal (JsVal.vNum n) = true) ∧
    jsValToString (JsVal.vNum 0) = "0" := by
  refine ⟨?_, fun n => rfl, rfl⟩
  rw [serializeFilters, serializeAux_eq]
  simp only [List.nil_append, List.mem_map, List.mem_filter]
  constructor
  · rintro ⟨⟨k', v⟩, ⟨hv, hkeep⟩, hpair⟩
    obtain ⟨hk, hs⟩ := Prod.mk.injEq .. ▸ hpair
    obtain ⟨h1, h2, h3⟩ := (keepJsVal_eq_true_iff v).1 hkeep
    exact ⟨v, by simpa [← hk] using hv, h1, h2, h3, hs.symm⟩
  · rintro ⟨v, hv, h1, h2, h3, hs⟩
    exact ⟨(k, v), ⟨hv, (keepJsVal_eq_true_iff v).2 ⟨h1, h2, h3⟩⟩, by simp [hs]⟩

/-! ## Favorites load recovery -/

/-- C3: whatever the persisted favorites key holds — absent (`none`), a
string the deserializer rejects, or a string it accepts — `load` produces
a list, the empty list in the absent and corrupt cases.  `getFavoritesRaw`
is a total function because the source wraps both the read and the parse
in `try/catch`: no failure escapes to the caller. -/
theorem getFavorites_recovers_from_corrupt_store
    (parse : String → Except String (List Int)) :
    getFavoritesRaw none parse = [] ∧
    (∀ s e, parse s = .error e → getFavoritesRaw (some s) parse = []) ∧
    (∀ s l, s ≠ "" → parse s = .ok l → getFavoritesRaw (some s) parse = l) := by
  refine ⟨rfl, ?_, ?_⟩
  · intro s e hp
    by_cases h : s == "" <;> simp [getFavoritesRaw, h, hp]
  · intro s l hs hp
    simp [getFavoritesRaw, hs, hp]

/-- Witness for C3 at concrete store contents: an absent key, the corrupt
string `"garbage"`, and the valid encoding of `[5,7]`. -/
theorem getFavorites_recovers_witness :
    getFavoritesRaw none parseStub = [] ∧
    getFavoritesRaw (some "garbage") parseStub = [] ∧
    getFavoritesRaw (some "[5,7]") parseStub = [5, 7] := by
  obtain ⟨h1, h2, h3⟩ := getFavorites_recovers_from_corrupt_store parseStub
  exact ⟨h1, h2 "garbage" "Unexpected token" rfl,
    h3 "[5,7]" [5, 7] (by decide) rfl⟩

/-! ## Favorites set algebra -/

/-- C4: `add` and `remove` are idempotent on the whole
(result, store) state, and a double `toggle` restores the original
favorite set (the same membership for every id; `FavoriteSet` equality is
membership equality, order being irrelevant for the set). -/
theorem favorites_ops_idempotent (store : Option (List Int)) (movieId : Int) :
    addToFavoritesV (addToFavoritesV store movieId true).2 movieId true =
      addToFavoritesV store movieId true ∧
    removeFromFavoritesV (removeFromFavoritesV store movieId true).2 movieId true =
      removeFromFavoritesV store movieId true ∧
    (∀ x : Int,
      x ∈ getFavoritesV
          (toggleFavoriteV (toggleFavoriteV store movieId true).2 movieId true).2 ↔
      x ∈ getFavoritesV store) := by
  refine ⟨?_, ?_, ?_⟩
  · by_cases h : movieId ∈ store.getD [] <;>
      simp [addToFavoritesV, saveFavoritesV, getFavoritesV, h]
  · simp [removeFromFavoritesV, saveFavoritesV, getFavoritesV,
      List.filter_filter]
  · intro x
    by_cases h : movieId ∈ store.getD [] <;>
      by_cases hx : x = movieId <;>
        simp [toggleFavoriteV, isFavoriteV, addToFavoritesV,
          removeFromFavoritesV, saveFavoritesV, getFavoritesV, h, hx]

/-- After any single successful-write operation, the caller-visible list
is exactly what a subsequent `load` reads back from the store. -/
theorem applyFavOp_fst_eq_load (store : Option (List Int)) (op : FavOp) :
    (applyFavOp store op).1 = getFavoritesV (applyFavOp store op).2 := by
  cases op with
  | load => rfl
  | add id =>
      by_cases h : id ∈ store.getD [] <;>
        simp [applyFavOp, applyFavOpW, addToFavoritesV, saveFavoritesV,
          getFavoritesV, h]
  | remove id =>
      simp [applyFavOp, applyFavOpW, removeFromFavoritesV, saveFavoritesV,
        getFavoritesV]
  | toggle id =>
      by_cases h : id ∈ store.getD [] <;>
        simp [applyFavOp, applyFavOpW, toggleFavoriteV, isFavoriteV,
          addToFavoritesV, removeFromFavoritesV, saveFavoritesV,
          getFavoritesV, h]
  | clear => rfl

/-- Folding operations preserves the load/result agreement. -/
theorem foldl_applyFavOp_inv (ops : List FavOp) :
    ∀ acc : List Int × Option (List Int), acc.1 = getFavoritesV acc.2 →
      ((ops.foldl (fun acc op => applyFavOp acc.2 op) acc).1 =
        getFavoritesV ((ops.foldl (fun acc op => applyFavOp acc.2 op) acc).2)) := by
  induction ops with
  | nil => intro acc h; exact h
  | cons op rest ih =>
      intro acc _
      simp only [List.foldl_cons]
      exact ih _ (applyFavOp_fst_eq_load acc.2 op)

/-- C5: every mutating operation persists before returning, so after any
operation sequence `load` reads back exactly the list the last operation
returned; in particular `load; add 5; add 7; remove 5; load` on an empty
store yields `[7]`. -/
theorem favorites_round_trip :
    (∀ (store : Option (List Int)) (ops : List FavOp),
      (runFavOps store ops).1 = getFavoritesV (runFavOps store ops).2) ∧
    (runFavOps none
      [FavOp.load, FavOp.add 5, FavOp.add 7, FavOp.remove 5, FavOp.load]).1 =
      [7] := by
  refine ⟨fun store ops => foldl_applyFavOp_inv ops _ rfl, by decide⟩

/-- One successful-write operation keeps the persisted list
duplicate-free. -/
theorem applyFavOp_nodup (store : Option (List Int)) (op : FavOp)
    (h : (getFavoritesV store).Nodup) :
    (getFavoritesV (applyFavOp store op).2).Nodup := by
  cases op with
  | load => exact h
  | add id =>
      by_cases hm : id ∈ store.getD [] <;>
        simp_all [applyFavOp, applyFavOpW, addToFavoritesV, saveFavoritesV,
          getFavoritesV, List.nodup_append]
  | remove id =>
      simpa [applyFavOp, applyFavOpW, removeFromFavoritesV, saveFavoritesV,
        getFavoritesV] using h.filter _
  | toggle id =>
      by_cases hm : id ∈ store.getD []
      · simpa [applyFavOp, applyFavOpW, toggleFavoriteV, isFavoriteV,
          removeFromFavoritesV, saveFavoritesV, getFavoritesV, hm]
          using h.filter _
      · simp_all [applyFavOp, applyFavOpW, toggleFavoriteV, isFavoriteV,
          addToFavoritesV, saveFavoritesV, getFavoritesV,
          List.nodup_append]
  | clear => simp [applyFavOp, applyFavOpW, clearFavoritesV, getFavoritesV]

/-- Folding operations preserves duplicate-freedom of the store. -/
theorem foldl_applyFavOp_nodup (ops : List FavOp) :
    ∀ acc : List Int × Option (List Int), (getFavoritesV acc.2).Nodup →
      (getFavoritesV ((ops.foldl (fun acc op => applyFavOp acc.2 op) acc).2)).Nodup := by
  induction ops with
  | nil => intro acc h; exact h
  | cons op rest ih =>
      intro acc h
      simp only [List.foldl_cons]
      exact ih _ (applyFavOp_nodup acc.2 op h)

/-- C9: starting from the empty favorites store, every sequence of
operations leaves the favorites list free of duplicate ids. -/
theorem favorites_no_duplicates (ops : List FavOp) :
    (getFavoritesV (runFavOps none ops).2).Nodup :=
  foldl_applyFavOp_nodup ops _ (by simp [getFavoritesV])

/-- C10: a failed storage write is only logged: the caller-visible list of
every operation is the same as with a successful write, so `add` still
returns a list containing the id, `remove` one without it, and `clear`
still shows the empty list. -/
theorem favorites_write_failure_transparent (store : Option (List Int))
    (movieId : Int) (writeOk : Bool) :
    (∀ op : FavOp, (applyFavOpW store writeOk op).1 = (applyFavOp store op).1) ∧
    movieId ∈ (applyFavOpW store writeOk (FavOp.add movieId)).1 ∧
    movieId ∉ (applyFavOpW store writeOk (FavOp.remove movieId)).1 ∧
    (applyFavOpW store writeOk FavOp.clear).1 = [] := by
  refine ⟨?_, ?_, ?_, rfl⟩
  · intro op
    cases op with
    | load => rfl
    | add id =>
        by_cases h : id ∈ store.getD [] <;>
          simp [applyFavOp, applyFavOpW, addToFavoritesV, saveFavoritesV,
            getFavoritesV, h]
    | remove id =>
        simp [applyFavOp, applyFavOpW, removeFromFavoritesV, saveFavoritesV,
          getFavoritesV]
    | toggle id =>
        by_cases h : id ∈ store.getD [] <;>
          simp [applyFavOp, applyFavOpW, toggleFavoriteV, isFavoriteV,
            addToFavoritesV, removeFromFavoritesV, saveFavoritesV,
            getFavoritesV, h]
    | clear => rfl
  · by_cases h : movieId ∈ store.getD [] <;>
      simp [applyFavOpW, addToFavoritesV, saveFavoritesV, getFavoritesV, h]
  · simp [applyFavOpW, removeFromFavoritesV, saveFavoritesV, getFavoritesV]

/-! ## Hydration -/

/-- If some id's fetch fails, the aggregate fails. -/
theorem hydrateFavorites_error_of_mem
    (fetch : Int → Except String MovieResp) :
    ∀ ids : List Int, (∃ i ∈ ids, ∃ e, fetch i = .error e) →
      ∃ e, hydrateFavorites ids fetch = .error e := by
  intro ids
  induction ids with
  | nil => rintro ⟨i, hi, _⟩; exact absurd hi (List.not_mem_nil i)
  | cons j rest ih =>
      rintro ⟨i, hi, e, hfe⟩
      cases hfj : fetch j with
      | error e' => exact ⟨e', by simp [hydrateFavorites, hfj]⟩
      | ok r =>
          rcases List.mem_cons.mp hi with hij | hir
          · rw [hij] at hfe
            rw [hfe] at hfj
            exact absurd hfj (by simp)
          · obtain ⟨e'', hrest⟩ := ih ⟨i, hir, e, hfe⟩
            exact ⟨e'', by simp [hydrateFavorites, hfj, hrest]⟩

/-- If every id's fetch succeeds, the aggregate succeeds with one response
per id. -/
theorem hydrateFavorites_ok_of_all
    (fetch : Int → Except String MovieResp) :
    ∀ ids : List Int, (∀ i ∈ ids, ∃ m, fetch i = .ok m) →
      ∃ rs, hydrateFavorites ids fetch = .ok rs ∧ rs.length = ids.length := by
  intro ids
  induction ids with
  | nil => intro _; exact ⟨[], rfl, rfl⟩
  | cons j rest ih =>
      intro hall
      obtain ⟨m, hm⟩ := hall j (List.mem_cons_self j rest)
      obtain ⟨rs, hrs, hlen⟩ := ih (fun i hi => hall i (List.mem_cons_of_mem j hi))
      exact ⟨m :: rs, by simp [hydrateFavorites, hm, hrs], by simp [hlen]⟩

/-- C6: hydration of a non-empty favorites list is all-or-nothing: one
failing per-id fetch fails the whole `Promise.all` with a single error
(the page keeps its previous `favoriteMovies`, publishing no partial
list, and sets one error message), while all fetches succeeding yields
exactly one response per id. -/
theorem hydration_all_or_nothing (ids : List Int)
    (fetch : Int → Except String MovieResp) (hne : ids ≠ []) :
    ((∃ i ∈ ids, ∃ e, fetch i = .error e) →
      ∃ e, hydrateFavorites ids fetch = .error e) ∧
    ((∀ i ∈ ids, ∃ m, fetch i = .ok m) →
      ∃ rs, hydrateFavorites ids fetch = .ok rs ∧ rs.length = ids.length) ∧
    (∀ (st : FavPageState) (e : String),
      hydrateFavorites ids fetch = .error e →
      (fetchFavoriteMovies st ids fetch).1.favoriteMovies = st.favoriteMovies ∧
      (fetchFavoriteMovies st ids fetch).1.error = some (favErrorMessage e) ∧
      (fetchFavoriteMovies st ids fetch).2 = ids.length) := by
  refine ⟨hydrateFavorites_error_of_mem fetch ids,
    hydrateFavorites_ok_of_all fetch ids, ?_⟩
  intro st e herr
  have hempty : ids.isEmpty = false := by
    cases ids with
    | nil => exact absurd rfl hne
    | cons j rest => rfl
  refine ⟨?_, ?_, ?_⟩ <;> simp [fetchFavoriteMovies, hempty, herr]

/-- Witness for C6: hydrating `[1, 2]` where id 2's fetch fails yields one
error; hydrating it where both succeed yields two responses; the failing
hydration leaves the initial page's movie list empty. -/
theorem hydration_all_or_nothing_witness :
    (∃ e, hydrateFavorites [1, 2] fetchBad = .error e) ∧
    (∃ rs, hydrateFavorites [1, 2] fetchGood = .ok rs ∧ rs.length = 2) ∧
    (fetchFavoriteMovies favPageInit [1, 2] fetchBad).1.favoriteMovies = [] := by
  have hb := hydration_all_or_nothing [1, 2] fetchBad (by decide)
  have hg := hydration_all_or_nothing [1, 2] fetchGood (by decide)
  refine ⟨hb.1 ⟨2, by decide, "Network Error", rfl⟩,
    hg.2.1 (fun i _ => ⟨.plain (sampleMovie i), rfl⟩),
    (hb.2.2 favPageInit "Network Error" rfl).1⟩

/-- C7: hydrating the empty favorites list resolves to the empty list
while issuing zero `getMovieById` calls; the page effect only clears the
loading flag, leaving the (initially empty) movie list untouched. -/
theorem hydration_empty_no_calls (st : FavPageState)
    (fetch : Int → Except String MovieResp) :
    hydrateFavorites [] fetch = .ok [] ∧
    fetchFavoriteMovies st [] fetch = ({ st with loading := false }, 0) ∧
    (fetchFavoriteMovies favPageInit [] fetch).1.favoriteMovies = [] ∧
    (fetchFavoriteMovies favPageInit [] fetch).2 = 0 :=
  ⟨rfl, rfl, rfl, rfl⟩

/-! ## MoviesList lifecycle -/

/-- C8: from the error state, the retry handler
(`setFilters({...filters})`) triggers exactly one new fetch, issued for
the current FilterState — when the filters have not changed since the
failure this is the identical serialized query, issued exactly once
more.  The retry also clears the error and re-enters loading. -/
theorem retry_reissues_current_filters (st : MLState) (e : String)
    (_he : st.error = some e) :
    stepML st (MLEvent.setFilters st.filters) =
      { st with loading := true, error := none,
                issued := st.issued ++ [st.filters] } ∧
    (stepML st (MLEvent.setFilters st.filters)).issued.length =
      st.issued.length + 1 ∧
    (stepML st (MLEvent.setFilters st.filters)).issued.getLast? =
      some st.filters ∧
    ((stepML st (MLEvent.setFilters st.filters)).issued.getLast?.map
        serializeFilters) = some (serializeFilters st.filters) := by
  refine ⟨rfl, by simp [stepML], ?_, ?_⟩
  · simp [stepML, List.getLast?_concat]
  · simp [stepML, List.getLast?_concat]

/-- Witness for C8: retrying from a concrete error state appends exactly
one request, for the unchanged default filters. -/
theorem retry_reissues_witness :
    (stepML mlErrorState (MLEvent.setFilters mlErrorState.filters)).issued.length = 2 ∧
    (stepML mlErrorState (MLEvent.setFilters mlErrorState.filters)).issued.getLast? =
      some mlDefaultFilters ∧
    (stepML mlErrorState (MLEvent.setFilters mlErrorState.filters)).error = none := by
  have h := retry_reissues_current_filters mlErrorState "Network Error" rfl
  exact ⟨h.2.1, h.2.2.1, by rw [h.1]⟩

/-- C1 fails on the code: the completion handler applies whatever response
arrives, with no generation check.  In the trace below the user filters
for `alpha` (request 1) and then `beta` (request 2); request 2's response
arrives first, and request 1's stale response arrives last.  The final
published movie list is request 1's data even though the most recently
issued FilterState is `fsBeta` — completion order, not issue order,
determined the published result. -/
theorem stale_response_published :
    (runML staleTrace).filters = fsBeta ∧
    (runML staleTrace).issued = [mlDefaultFilters, fsAlpha, fsBeta] ∧
    (runML staleTrace).movies = [sampleMovie 101] ∧
    respAlpha.data.getD [] = [sampleMovie 101] ∧
    respBeta.data.getD [] = [sampleMovie 202] ∧
    fsAlpha ≠ fsBeta ∧
    (runML staleTrace).movies ≠ respBeta.data.getD [] := by
  refine ⟨rfl, rfl, rfl, rfl, rfl, by decide, by decide⟩
